import Mathlib

/-!
# Verification of `DexieStorageProvider`
  (src/packages/core/src/services/storage/dexieStorageProvider.ts)

Shallow embedding of the key-value storage provider: the Dexie table is a
list of records with unique keys, observed only through key lookups; the
asynchronous engine effects (engine failures, transaction outcomes, the
wall clock `Date.now()`) are passed in explicitly as oracles.  JavaScript
exceptions are modelled as `Except` results carrying an `AErr` value
(`name`/`message` fields, the shape the code inspects); `new Error(msg)`
in JS yields an object whose `name` is `"Error"`.

The cooperative concurrency of `atomicUpdate`'s per-key lock
(`keyLocks`) is modelled separately in namespace `LockModel` as a
small-step transition system over explicitly scheduled tasks.
-/

/-- A JavaScript error value, as far as the provider inspects it:
its `name` and `message` fields.  `new Error(m)` produces name `"Error"`. -/
structure AErr where
  name : String
  message : String
deriving DecidableEq, Repr

/-- The `StorageRecord` interface of the source: a row of the `storage`
table.  `timestamp?: number` becomes `Option Nat`. -/
structure StorageRecord where
  key : String
  value : String
  timestamp : Option Nat
deriving DecidableEq, Repr

/-- The Dexie `storage` table: a list of records with pairwise distinct
keys (Dexie keys rows by the `key` primary key; list order is not
observable through the operations modelled here). -/
abbrev Table := List StorageRecord

/-- `db.storage.get(key)`: the record stored under `key`, if any. -/
def Table.get (t : Table) (k : String) : Option StorageRecord :=
  t.find? (fun r => r.key == k)

/-- `db.storage.put(record)`: upsert by primary key. -/
def Table.put (t : Table) (r : StorageRecord) : Table :=
  t.filter (fun r0 => r0.key != r.key) ++ [r]

/-- `db.storage.delete(key)`. -/
def Table.del (t : Table) (k : String) : Table :=
  t.filter (fun r0 => r0.key != k)

/-- `db.storage.bulkPut(records)`: puts applied in array order (a later
record with the same primary key replaces an earlier one). -/
def Table.bulkPut (t : Table) (rs : List StorageRecord) : Table :=
  rs.foldl Table.put t

/-- `db.storage.bulkDelete(keys)`. -/
def Table.bulkDelete (t : Table) (ks : List String) : Table :=
  ks.foldl Table.del t

/-- `orderBy('timestamp').last()?.timestamp ?? null`: the largest
timestamp present in the table, if any. -/
def Table.lastUpdated (t : Table) : Option Nat :=
  (t.filterMap (fun r => r.timestamp)).max?

/-- The provider's state: `dbOpened` is the stored one-time open promise
(`some e` = the open rejected with `e`, and every later `await` of it
re-raises the same `e`; `none` = the open succeeded), plus the backing
table.  The open is performed once, in the constructor; no operation
retries it. -/
structure Provider where
  dbOpened : Option AErr
  table : Table
deriving DecidableEq, Repr

/-- `getItem(key)`: after the init check, `get` then `record?.value ?? null`;
an engine failure is caught and re-thrown as `new Error('Failed to get item: ' + key)`. -/
def getItem (p : Provider) (k : String) (engineFail : Bool) :
    Except AErr (Option String) :=
  match p.dbOpened with
  | some e => .error e
  | none =>
    if engineFail then .error ⟨"Error", "Failed to get item: " ++ k⟩
    else .ok ((p.table.get k).map (fun r => r.value))

/-- `setItem(key, value)`: puts `{key, value, timestamp: Date.now()}`. -/
def setItem (p : Provider) (k v : String) (now : Nat) (engineFail : Bool) :
    Except AErr Provider :=
  match p.dbOpened with
  | some e => .error e
  | none =>
    if engineFail then .error ⟨"Error", "Failed to set item: " ++ k⟩
    else .ok { p with table := p.table.put ⟨k, v, some now⟩ }

/-- `removeItem(key)`. -/
def removeItem (p : Provider) (k : String) (engineFail : Bool) :
    Except AErr Provider :=
  match p.dbOpened with
  | some e => .error e
  | none =>
    if engineFail then .error ⟨"Error", "Failed to remove item: " ++ k⟩
    else .ok { p with table := p.table.del k }

/-- `clearAll()`. -/
def clearAll (p : Provider) (engineFail : Bool) : Except AErr Provider :=
  match p.dbOpened with
  | some e => .error e
  | none =>
    if engineFail then .error ⟨"Error", "Failed to clear storage"⟩
    else .ok { p with table := [] }

/-- The record type of `batchUpdate`'s operation entries:
`operation: 'set' | 'remove'`. -/
inductive BatchOpKind where
  | set
  | remove
deriving DecidableEq, Repr

/-- One entry of `batchUpdate`'s input list; `value?: string` becomes
`Option String` (`none` = the JS field is `undefined`). -/
structure BatchOp where
  key : String
  operation : BatchOpKind
  value : Option String
deriving DecidableEq, Repr

/-- The `updates` staging array built by `batchUpdate`'s loop: entries with
`operation === 'set' && value !== undefined`, in list order. -/
def batchUpdates (ops : List BatchOp) (now : Nat) : List StorageRecord :=
  ops.filterMap (fun o =>
    match o.operation, o.value with
    | .set, some v => some ⟨o.key, v, some now⟩
    | _, _ => none)

/-- The `deletions` staging array built by `batchUpdate`'s loop: keys of
`remove` entries, in list order.  (An entry with `operation === 'set'` and
an `undefined` value matches neither branch of the loop.) -/
def batchDeletions (ops : List BatchOp) : List String :=
  ops.filterMap (fun o =>
    match o.operation with
    | .remove => some o.key
    | .set => none)

/-- The table produced by `batchUpdate`'s transaction body: first
`bulkPut(updates)`, then `bulkDelete(deletions)`. -/
def batchTable (t : Table) (ops : List BatchOp) (now : Nat) : Table :=
  (t.bulkPut (batchUpdates ops now)).bulkDelete (batchDeletions ops)

/-- `batchUpdate(operations)`: one read-write transaction applying the two
staged bulk operations; commits iff the body succeeds, otherwise rolls back
(no observable change) and the failure is re-thrown as
`new Error('Failed to perform batch update')`. -/
def batchUpdate (p : Provider) (ops : List BatchOp) (now : Nat)
    (engineFail : Bool) : Except AErr Provider :=
  match p.dbOpened with
  | some e => .error e
  | none =>
    if engineFail then .error ⟨"Error", "Failed to perform batch update"⟩
    else .ok { p with table := batchTable p.table ops now }

/-- The result record of `getStorageInfo`. -/
structure StorageInfo where
  itemCount : Nat
  estimatedSize : Nat
  lastUpdated : Option Nat
deriving DecidableEq, Repr

/-- `getStorageInfo()`: note that `await this.initialize()` sits OUTSIDE
the try/catch, so a failed one-time open propagates; only failures of the
statistics queries themselves are swallowed into the zero result. -/
def getStorageInfo (p : Provider) (engineFail : Bool) :
    Except AErr StorageInfo :=
  match p.dbOpened with
  | some e => .error e
  | none =>
    if engineFail then .ok ⟨0, 0, none⟩
    else .ok ⟨p.table.length,
              (p.table.map (fun r => r.value.length)).sum,
              p.table.lastUpdated⟩

/-- `exportAll()`: the key→value mapping of all records. -/
def exportAll (p : Provider) (engineFail : Bool) :
    Except AErr (List (String × String)) :=
  match p.dbOpened with
  | some e => .error e
  | none =>
    if engineFail then .error ⟨"Error", "Failed to export data"⟩
    else .ok (p.table.map (fun r => (r.key, r.value)))

/-- `importAll(data)`: `bulkPut` of one record per entry of `data`
(`Object.entries` of a JS record: keys pairwise distinct), each stamped
with `Date.now()`.  The existing table is merged into, not replaced. -/
def importAll (p : Provider) (data : List (String × String)) (now : Nat)
    (engineFail : Bool) : Except AErr Provider :=
  match p.dbOpened with
  | some e => .error e
  | none =>
    if engineFail then .error ⟨"Error", "Failed to import data"⟩
    else
      .ok { p with
            table := p.table.bulkPut (data.map (fun kv => ⟨kv.1, kv.2, some now⟩)) }

/-! ## The atomic update engine

`_performAtomicUpdate` runs the read-modify-write transaction; what the
retry loop observes is only the error it throws, so we embed its
error-translation layer: the raw outcome of `this.db.transaction(...)`
(either commit success or a rejection with some error) is mapped to the
error the function re-throws.  Both branches of its catch construct a
generic `new Error(...)`, whose `name` field is `"Error"`. -/

/-- Error translation of `_performAtomicUpdate` (lines 250-289): `none` =
the transaction committed and the function returns; `some e` = the
function throws `e`.  A raw `PrematureCommitError` is re-thrown as
`new Error('Database transaction error for key <k>: <msg>. Please try again.')`;
every other raw failure as `new Error('Failed to perform atomic update: <k>')`. -/
def performAtomicUpdateErr (key : String) (rawTx : Option AErr) : Option AErr :=
  match rawTx with
  | none => none
  | some e =>
    if e.name = "PrematureCommitError" then
      some ⟨"Error", "Database transaction error for key " ++ key ++ ": "
                      ++ e.message ++ ". Please try again."⟩
    else
      some ⟨"Error", "Failed to perform atomic update: " ++ key⟩

/-- Error translation of `_performSimpleUpdate` (lines 221-245): any
failure of the plain get/put fallback is re-thrown as
`new Error('Failed to perform simple update: <k>')`. -/
def performSimpleUpdateErr (key : String) (rawSimple : Option AErr) :
    Option AErr :=
  match rawSimple with
  | none => none
  | some _ => some ⟨"Error", "Failed to perform simple update: " ++ key⟩

/-- The engine-side outcomes an `atomicUpdate` call encounters:
the raw result of each transactional attempt (indexed from attempt 1)
and the raw result of the fallback simple update, were it invoked. -/
structure AtomicEnv where
  txOutcomes : List (Option AErr)
  simpleOutcome : Option AErr
deriving DecidableEq, Repr

/-- Raw outcome of the n-th (1-based) transactional attempt; attempts
beyond the supplied list succeed. -/
def AtomicEnv.tx (env : AtomicEnv) (attempt : Nat) : Option AErr :=
  env.txOutcomes.getD (attempt - 1) none

/-- Observable actions of `_performAtomicUpdateWithRetry`, in order:
a transactional attempt (with the error it threw, if any), a backoff
`setTimeout` wait of the given milliseconds, a fallback simple update
(with the error it threw, if any). -/
inductive AUEvent where
  | txAttempt (attempt : Nat) (err : Option AErr)
  | backoffWait (ms : Nat)
  | fallbackAttempt (err : Option AErr)
deriving DecidableEq, Repr

/-- The retry loop body of `_performAtomicUpdateWithRetry` (lines
185-213), iteration at `attempt`, with `fuel = maxRetries - attempt + 1`
iterations left.  Returns the trace of events and the overall result
(`.ok ()` = the promise resolves; `.error e` = it rejects with `e`).
Mirrors the source exactly: a caught error whose `name` is
`'PrematureCommitError'` with `attempt < maxRetries` waits
`min(100 * 2^(attempt-1), 1000)` ms then retries; otherwise, if
`attempt === maxRetries` the fallback simple update runs (success resolves
the call, failure re-raises `lastError`, i.e. this attempt's error);
otherwise the loop just proceeds to the next attempt. -/
def retryGo (key : String) (env : AtomicEnv) (maxRetries : Nat) :
    Nat → Nat → Option AErr → List AUEvent × Except AErr Unit
  | 0, _, lastError =>
    ([], .error (lastError.getD
      ⟨"Error", "Failed to perform atomic update after "
                 ++ toString maxRetries ++ " attempts"⟩))
  | fuel + 1, attempt, _ =>
    match performAtomicUpdateErr key (env.tx attempt) with
    | none => ([.txAttempt attempt none], .ok ())
    | some e =>
      if e.name = "PrematureCommitError" ∧ attempt < maxRetries then
        let r := retryGo key env maxRetries fuel (attempt + 1) (some e)
        (.txAttempt attempt (some e) ::
           .backoffWait (min (100 * 2 ^ (attempt - 1)) 1000) :: r.1, r.2)
      else if attempt = maxRetries then
        match performSimpleUpdateErr key env.simpleOutcome with
        | none =>
          ([.txAttempt attempt (some e), .fallbackAttempt none], .ok ())
        | some fe =>
          ([.txAttempt attempt (some e), .fallbackAttempt (some fe)],
           .error e)
      else
        let r := retryGo key env maxRetries fuel (attempt + 1) (some e)
        (.txAttempt attempt (some e) :: r.1, r.2)

/-- `_performAtomicUpdateWithRetry(key, updateFn, maxRetries = 3)`:
the loop runs attempts `1 .. maxRetries`. -/
def performAtomicUpdateWithRetry (key : String) (env : AtomicEnv)
    (maxRetries : Nat := 3) : List AUEvent × Except AErr Unit :=
  retryGo key env maxRetries maxRetries 1 none

/-- `atomicUpdate(key, updateFn)` as seen by one caller once it holds the
per-key lock: the one-time-open check (`await this.initialize()`), then
the retry engine.  (The `keyLocks` discipline itself is modelled in
`LockModel`.) -/
def atomicUpdate (p : Provider) (key : String) (env : AtomicEnv) :
    Except AErr Unit :=
  match p.dbOpened with
  | some e => .error e
  | none => (performAtomicUpdateWithRetry key env).2

/-- `updateData` is a direct alias of `atomicUpdate`. -/
def updateData (p : Provider) (key : String) (env : AtomicEnv) :
    Except AErr Unit :=
  atomicUpdate p key env

/-- Whether a trace contains a backoff wait. -/
def hasBackoff (tr : List AUEvent) : Bool :=
  tr.any (fun ev =>
    match ev with
    | .backoffWait _ => true
    | _ => false)

/-- Whether a trace contains a fallback simple-update attempt. -/
def hasFallback (tr : List AUEvent) : Bool :=
  tr.any (fun ev =>
    match ev with
    | .fallbackAttempt _ => true
    | _ => false)

/-- Whether a trace contains the n-th transactional attempt. -/
def hasTxAttempt (tr : List AUEvent) (n : Nat) : Bool :=
  tr.any (fun ev =>
    match ev with
    | .txAttempt m _ => m == n
    | _ => false)

namespace LockModel

/-!  ## The `keyLocks` cooperative lock discipline (lines 134-154)

```
const lockKey = `atomic_${key}`;
if (this.keyLocks.has(lockKey)) {
  await this.keyLocks.get(lockKey);
}
const lockPromise = this._performAtomicUpdateWithRetry(key, updateFn);
this.keyLocks.set(lockKey, lockPromise);
try { await lockPromise; } finally { this.keyLocks.delete(lockKey); }
```

Small-step model.  Each concurrent `atomicUpdate` caller is a task; the
scheduler (a list of task indices) picks which runnable task performs its
next continuation.  Promises are numbered; `resolved` records which have
settled.  JavaScript's cooperative semantics are respected: everything a
continuation does synchronously is one atomic step of the model, and a
task suspended on a promise runs only after that promise resolves.

Task phases, each transition one synchronous continuation of the source:
  * `checking`    — about to run the `has`/`get` check; if the map holds a
    promise for the lock key, the task suspends on it (`waiting p`),
    otherwise it synchronously starts `_performAtomicUpdateWithRetry`
    (whose first engine call begins the in-flight update) and installs its
    own `lockPromise` (`reading q`).
  * `waiting p`   — suspended on `await keyLocks.get(lockKey)`; once `p`
    resolves, the resumed continuation synchronously starts its own update
    and installs its own `lockPromise`, with NO re-check of the map.
  * `reading q`   — update in flight, holding promise `q`; the
    transactional read of the current value has not happened yet.
  * `writing q v` — the update read value `v`; the transactional write and
    the resolution of `q` are still pending.
  * `finishing q` — `q` resolved (the update wrote its result); the
    `finally` continuation will run `keyLocks.delete(lockKey)`
    unconditionally.
  * `done`.

Stored values are ghost histories: the value under a key is the list of
ids of the updaters applied so far, newest first — updater `i` maps the
read value `v` to `i :: v`, so lost updates are visible in the history. -/

/-- Task phase; see the namespace header. -/
inductive Phase where
  | checking
  | waiting (p : Nat)
  | reading (q : Nat)
  | writing (q : Nat) (readVal : List Nat)
  | finishing (q : Nat)
  | done
deriving DecidableEq, Repr

/-- One concurrent `atomicUpdate(key, fᵢ)` caller. -/
structure Task where
  id : Nat
  key : String
  phase : Phase
deriving DecidableEq, Repr

/-- Whole-system state: the tasks, the `keyLocks` map, the set of resolved
promises, the store, and the next fresh promise id. -/
structure Sys where
  tasks : List Task
  keyLocks : List (String × Nat)
  resolved : List Nat
  store : List (String × List Nat)
  nextPromise : Nat
deriving DecidableEq, Repr

/-- `Map.get`-style lookup in an association list. -/
def lookup {α : Type} (l : List (String × α)) (k : String) : Option α :=
  (l.find? (fun kv => kv.1 == k)).map (fun kv => kv.2)

/-- `Map.set`-style update in an association list. -/
def insertKV {α : Type} (l : List (String × α)) (k : String) (v : α) :
    List (String × α) :=
  l.filter (fun kv => kv.1 != k) ++ [(k, v)]

/-- `Map.delete`-style removal from an association list. -/
def eraseKV {α : Type} (l : List (String × α)) (k : String) :
    List (String × α) :=
  l.filter (fun kv => kv.1 != k)

/-- The source's lock key: `` `atomic_${key}` ``. -/
def lockKey (k : String) : String := "atomic_" ++ k

/-- One step of a single task, if it is runnable.  Returns the new task
state and new system state. -/
def stepTask (s : Sys) (t : Task) : Option (Task × Sys) :=
  match t.phase with
  | .checking =>
    match lookup s.keyLocks (lockKey t.key) with
    | some p => some ({ t with phase := .waiting p }, s)
    | none =>
      let q := s.nextPromise
      some ({ t with phase := .reading q },
            { s with keyLocks := insertKV s.keyLocks (lockKey t.key) q,
                     nextPromise := q + 1 })
  | .waiting p =>
    if p ∈ s.resolved then
      let q := s.nextPromise
      some ({ t with phase := .reading q },
            { s with keyLocks := insertKV s.keyLocks (lockKey t.key) q,
                     nextPromise := q + 1 })
    else none
  | .reading q =>
    some ({ t with phase := .writing q ((lookup s.store t.key).getD []) }, s)
  | .writing q v =>
    some ({ t with phase := .finishing q },
          { s with store := insertKV s.store t.key (t.id :: v),
                   resolved := q :: s.resolved })
  | .finishing _ =>
    some ({ t with phase := .done },
          { s with keyLocks := eraseKV s.keyLocks (lockKey t.key) })
  | .done => none

/-- One scheduler step: task `i` runs its next continuation (no-op index
or non-runnable task: no step). -/
def step (s : Sys) (i : Nat) : Option Sys :=
  match s.tasks.get? i with
  | none => none
  | some t =>
    match stepTask s t with
    | none => none
    | some ts' => some { ts'.2 with tasks := s.tasks.set i ts'.1 }

/-- Run a schedule: each entry picks the task to step next (an entry whose
step is disabled is skipped). -/
def run (s : Sys) : List Nat → Sys
  | [] => s
  | i :: rest => run ((step s i).getD s) rest

/-- Initial system: the given tasks about to run their lock check, empty
map, empty store. -/
def initSys (ts : List Task) : Sys :=
  ⟨ts, [], [], [], 0⟩

/-- An atomic update is executing (in flight) from the moment
`_performAtomicUpdateWithRetry` is started until its promise resolves. -/
def inFlight : Phase → Bool
  | .reading _ => true
  | .writing _ _ => true
  | _ => false

/-- Two distinct tasks with the same key both have updates in flight:
the mutual-exclusion property the lock is supposed to provide is broken. -/
def twoInFlightSameKey (s : Sys) : Bool :=
  s.tasks.any (fun t1 => s.tasks.any (fun t2 =>
    t1.id != t2.id && t1.key == t2.key
      && inFlight t1.phase && inFlight t2.phase))

/-- All tasks have completed. -/
def allDone (s : Sys) : Bool :=
  s.tasks.all (fun t =>
    match t.phase with
    | .done => true
    | _ => false)

/-- Some task is suspended waiting on a lock promise. -/
def someWaiting (s : Sys) : Bool :=
  s.tasks.any (fun t =>
    match t.phase with
    | .waiting _ => true
    | _ => false)

/-- Three callers concurrently invoking `atomicUpdate` on key `"k"`. -/
def ce3 : Sys :=
  initSys [⟨0, "k", .checking⟩, ⟨1, "k", .checking⟩, ⟨2, "k", .checking⟩]

/-- A schedule after which callers 1 and 2 both have updates in flight on
key `"k"`: caller 0 runs alone first; callers 1 and 2 queue on caller 0's
lock promise; its resolution releases both. -/
def ceMid : List Nat := [0, 1, 2, 0, 0, 0, 1, 2]

/-- Extension of `ceMid` that runs everything to completion. -/
def ceFull : List Nat := ceMid ++ [1, 2, 1, 2, 1, 2]

/-- Two callers concurrently invoking `atomicUpdate` on key `"k"`. -/
def ce2 : Sys := initSys [⟨0, "k", .checking⟩, ⟨1, "k", .checking⟩]

/-- Two callers on distinct keys `"a"` and `"b"`. -/
def cd2 : Sys := initSys [⟨0, "a", .checking⟩, ⟨1, "b", .checking⟩]

/-- Enabled successor states of a system state. -/
def succs (s : Sys) : List Sys :=
  (List.range s.tasks.length).filterMap (step s)

/-- One BFS layer: add all successors of states in `acc` not seen yet. -/
def bfsStep (acc : List Sys) : List Sys :=
  acc ++ ((acc.map succs).flatten.filter
    (fun s => !(acc.any (fun x => decide (x = s))))).eraseDups

/-- Reachable states, by fueled breadth-first closure. -/
def bfs : Nat → List Sys → List Sys
  | 0, acc => acc
  | n + 1, acc => bfs n (bfsStep acc)

end LockModel

namespace LockModel

/-- The reachable state space of `ce2` (two concurrent callers on one
key), computed as the breadth-first closure of `succs` and checked closed
and safe below. -/
def R2 : List Sys :=
[{ tasks := [{ id := 0, key := "k", phase := LockModel.Phase.checking },
             { id := 1, key := "k", phase := LockModel.Phase.checking }],
   keyLocks := [],
   resolved := [],
   store := [],
   nextPromise := 0 },
 { tasks := [{ id := 0, key := "k", phase := LockModel.Phase.reading 0 },
             { id := 1, key := "k", phase := LockModel.Phase.checking }],
   keyLocks := [("atomic_k", 0)],
   resolved := [],
   store := [],
   nextPromise := 1 },
 { tasks := [{ id := 0, key := "k", phase := LockModel.Phase.checking },
             { id := 1, key := "k", phase := LockModel.Phase.reading 0 }],
   keyLocks := [("atomic_k", 0)],
   resolved := [],
   store := [],
   nextPromise := 1 },
 { tasks := [{ id := 0, key := "k", phase := LockModel.Phase.writing 0 [] },
             { id := 1, key := "k", phase := LockModel.Phase.checking }],
   keyLocks := [("atomic_k", 0)],
   resolved := [],
   store := [],
   nextPromise := 1 },
 { tasks := [{ id := 0, key := "k", phase := LockModel.Phase.reading 0 },
             { id := 1, key := "k", phase := LockModel.Phase.waiting 0 }],
   keyLocks := [("atomic_k", 0)],
   resolved := [],
   store := [],
   nextPromise := 1 },
 { tasks := [{ id := 0, key := "k", phase := LockModel.Phase.waiting 0 },
             { id := 1, key := "k", phase := LockModel.Phase.reading 0 }],
   keyLocks := [("atomic_k", 0)],
   resolved := [],
   store := [],
   nextPromise := 1 },
 { tasks := [{ id := 0, key := "k", phase := LockModel.Phase.checking },
             { id := 1, key := "k", phase := LockModel.Phase.writing 0 [] }],
   keyLocks := [("atomic_k", 0)],
   resolved := [],
   store := [],
   nextPromise := 1 },
 { tasks := [{ id := 0, key := "k", phase := LockModel.Phase.finishing 0 },
             { id := 1, key := "k", phase := LockModel.Phase.checking }],
   keyLocks := [("atomic_k", 0)],
   resolved := [0],
   store := [("k", [0])],
   nextPromise := 1 },
 { tasks := [{ id := 0, key := "k", phase := LockModel.Phase.writing 0 [] },
             { id := 1, key := "k", phase := LockModel.Phase.waiting 0 }],
   keyLocks := [("atomic_k", 0)],
   resolved := [],
   store := [],
   nextPromise := 1 },
 { tasks := [{ id := 0, key := "k", phase := LockModel.Phase.waiting 0 },
             { id := 1, key := "k", phase := LockModel.Phase.writing 0 [] }],
   keyLocks := [("atomic_k", 0)],
   resolved := [],
   store := [],
   nextPromise := 1 },
 { tasks := [{ id := 0, key := "k", phase := LockModel.Phase.checking },
             { id := 1, key := "k", phase := LockModel.Phase.finishing 0 }],
   keyLocks := [("atomic_k", 0)],
   resolved := [0],
   store := [("k", [1])],
   nextPromise := 1 },
 { tasks := [{ id := 0, key := "k", phase := LockModel.Phase.done },
             { id := 1, key := "k", phase := LockModel.Phase.checking }],
   keyLocks := [],
   resolved := [0],
   store := [("k", [0])],
   nextPromise := 1 },
 { tasks := [{ id := 0, key := "k", phase := LockModel.Phase.finishing 0 },
             { id := 1, key := "k", phase := LockModel.Phase.waiting 0 }],
   keyLocks := [("atomic_k", 0)],
   resolved := [0],
   store := [("k", [0])],
   nextPromise := 1 },
 { tasks := [{ id := 0, key := "k", phase := LockModel.Phase.waiting 0 },
             { id := 1, key := "k", phase := LockModel.Phase.finishing 0 }],
   keyLocks := [("atomic_k", 0)],
   resolved := [0],
   store := [("k", [1])],
   nextPromise := 1 },
 { tasks := [{ id := 0, key := "k", phase := LockModel.Phase.checking },
             { id := 1, key := "k", phase := LockModel.Phase.done }],
   keyLocks := [],
   resolved := [0],
   store := [("k", [1])],
   nextPromise := 1 },
 { tasks := [{ id := 0, key := "k", phase := LockModel.Phase.done },
             { id := 1, key := "k", phase := LockModel.Phase.reading 1 }],
   keyLocks := [("atomic_k", 1)],
   resolved := [0],
   store := [("k", [0])],
   nextPromise := 2 },
 { tasks := [{ id := 0, key := "k", phase := LockModel.Phase.done },
             { id := 1, key := "k", phase := LockModel.Phase.waiting 0 }],
   keyLocks := [],
   resolved := [0],
   store := [("k", [0])],
   nextPromise := 1 },
 { tasks := [{ id := 0, key := "k", phase := LockModel.Phase.finishing 0 },
             { id := 1, key := "k", phase := LockModel.Phase.reading 1 }],
   keyLocks := [("atomic_k", 1)],
   resolved := [0],
   store := [("k", [0])],
   nextPromise := 2 },
 { tasks := [{ id := 0, key := "k", phase := LockModel.Phase.reading 1 },
             { id := 1, key := "k", phase := LockModel.Phase.finishing 0 }],
   keyLocks := [("atomic_k", 1)],
   resolved := [0],
   store := [("k", [1])],
   nextPromise := 2 },
 { tasks := [{ id := 0, key := "k", phase := LockModel.Phase.waiting 0 },
             { id := 1, key := "k", phase := LockModel.Phase.done }],
   keyLocks := [],
   resolved := [0],
   store := [("k", [1])],
   nextPromise := 1 },
 { tasks := [{ id := 0, key := "k", phase := LockModel.Phase.reading 1 },
             { id := 1, key := "k", phase := LockModel.Phase.done }],
   keyLocks := [("atomic_k", 1)],
   resolved := [0],
   store := [("k", [1])],
   nextPromise := 2 },
 { tasks := [{ id := 0, key := "k", phase := LockModel.Phase.done },
             { id := 1, key := "k", phase := LockModel.Phase.writing 1 [0] }],
   keyLocks := [("atomic_k", 1)],
   resolved := [0],
   store := [("k", [0])],
   nextPromise := 2 },
 { tasks := [{ id := 0, key := "k", phase := LockModel.Phase.done },
             { id := 1, key := "k", phase := LockModel.Phase.reading 1 }],
   keyLocks := [],
   resolved := [0],
   store := [("k", [0])],
   nextPromise := 2 },
 { tasks := [{ id := 0, key := "k", phase := LockModel.Phase.finishing 0 },
             { id := 1, key := "k", phase := LockModel.Phase.writing 1 [0] }],
   keyLocks := [("atomic_k", 1)],
   resolved := [0],
   store := [("k", [0])],
   nextPromise := 2 },
 { tasks := [{ id := 0, key := "k", phase := LockModel.Phase.writing 1 [1] },
             { id := 1, key := "k", phase := LockModel.Phase.finishing 0 }],
   keyLocks := [("atomic_k", 1)],
   resolved := [0],
   store := [("k", [1])],
   nextPromise := 2 },
 { tasks := [{ id := 0, key := "k", phase := LockModel.Phase.reading 1 },
             { id := 1, key := "k", phase := LockModel.Phase.done }],
   keyLocks := [],
   resolved := [0],
   store := [("k", [1])],
   nextPromise := 2 },
 { tasks := [{ id := 0, key := "k", phase := LockModel.Phase.writing 1 [1] },
             { id := 1, key := "k", phase := LockModel.Phase.done }],
   keyLocks := [("atomic_k", 1)],
   resolved := [0],
   store := [("k", [1])],
   nextPromise := 2 },
 { tasks := [{ id := 0, key := "k", phase := LockModel.Phase.done },
             { id := 1, key := "k", phase := LockModel.Phase.finishing 1 }],
   keyLocks := [("atomic_k", 1)],
   resolved := [1, 0],
   store := [("k", [1, 0])],
   nextPromise := 2 },
 { tasks := [{ id := 0, key := "k", phase := LockModel.Phase.done },
             { id := 1, key := "k", phase := LockModel.Phase.writing 1 [0] }],
   keyLocks := [],
   resolved := [0],
   store := [("k", [0])],
   nextPromise := 2 },
 { tasks := [{ id := 0, key := "k", phase := LockModel.Phase.finishing 0 },
             { id := 1, key := "k", phase := LockModel.Phase.finishing 1 }],
   keyLocks := [("atomic_k", 1)],
   resolved := [1, 0],
   store := [("k", [1, 0])],
   nextPromise := 2 },
 { tasks := [{ id := 0, key := "k", phase := LockModel.Phase.finishing 1 },
             { id := 1, key := "k", phase := LockModel.Phase.finishing 0 }],
   keyLocks := [("atomic_k", 1)],
   resolved := [1, 0],
   store := [("k", [0, 1])],
   nextPromise := 2 },
 { tasks := [{ id := 0, key := "k", phase := LockModel.Phase.writing 1 [1] },
             { id := 1, key := "k", phase := LockModel.Phase.done }],
   keyLocks := [],
   resolved := [0],
   store := [("k", [1])],
   nextPromise := 2 },
 { tasks := [{ id := 0, key := "k", phase := LockModel.Phase.finishing 1 },
             { id := 1, key := "k", phase := LockModel.Phase.done }],
   keyLocks := [("atomic_k", 1)],
   resolved := [1, 0],
   store := [("k", [0, 1])],
   nextPromise := 2 },
 { tasks := [{ id := 0, key := "k", phase := LockModel.Phase.done },
             { id := 1, key := "k", phase := LockModel.Phase.done }],
   keyLocks := [],
   resolved := [1, 0],
   store := [("k", [1, 0])],
   nextPromise := 2 },
 { tasks := [{ id := 0, key := "k", phase := LockModel.Phase.done },
             { id := 1, key := "k", phase := LockModel.Phase.finishing 1 }],
   keyLocks := [],
   resolved := [1, 0],
   store := [("k", [1, 0])],
   nextPromise := 2 },
 { tasks := [{ id := 0, key := "k", phase := LockModel.Phase.finishing 0 },
             { id := 1, key := "k", phase := LockModel.Phase.done }],
   keyLocks := [],
   resolved := [1, 0],
   store := [("k", [1, 0])],
   nextPromise := 2 },
 { tasks := [{ id := 0, key := "k", phase := LockModel.Phase.done },
             { id := 1, key := "k", phase := LockModel.Phase.finishing 0 }],
   keyLocks := [],
   resolved := [1, 0],
   store := [("k", [0, 1])],
   nextPromise := 2 },
 { tasks := [{ id := 0, key := "k", phase := LockModel.Phase.finishing 1 },
             { id := 1, key := "k", phase := LockModel.Phase.done }],
   keyLocks := [],
   resolved := [1, 0],
   store := [("k", [0, 1])],
   nextPromise := 2 },
 { tasks := [{ id := 0, key := "k", phase := LockModel.Phase.done },
             { id := 1, key := "k", phase := LockModel.Phase.done }],
   keyLocks := [],
   resolved := [1, 0],
   store := [("k", [0, 1])],
   nextPromise := 2 }]

/-- The reachable state space of `cd2` (two concurrent callers on
distinct keys). -/
def Rd : List Sys :=
[{ tasks := [{ id := 0, key := "a", phase := LockModel.Phase.checking },
             { id := 1, key := "b", phase := LockModel.Phase.checking }],
   keyLocks := [],
   resolved := [],
   store := [],
   nextPromise := 0 },
 { tasks := [{ id := 0, key := "a", phase := LockModel.Phase.reading 0 },
             { id := 1, key := "b", phase := LockModel.Phase.checking }],
   keyLocks := [("atomic_a", 0)],
   resolved := [],
   store := [],
   nextPromise := 1 },
 { tasks := [{ id := 0, key := "a", phase := LockModel.Phase.checking },
             { id := 1, key := "b", phase := LockModel.Phase.reading 0 }],
   keyLocks := [("atomic_b", 0)],
   resolved := [],
   store := [],
   nextPromise := 1 },
 { tasks := [{ id := 0, key := "a", phase := LockModel.Phase.writing 0 [] },
             { id := 1, key := "b", phase := LockModel.Phase.checking }],
   keyLocks := [("atomic_a", 0)],
   resolved := [],
   store := [],
   nextPromise := 1 },
 { tasks := [{ id := 0, key := "a", phase := LockModel.Phase.reading 0 },
             { id := 1, key := "b", phase := LockModel.Phase.reading 1 }],
   keyLocks := [("atomic_a", 0), ("atomic_b", 1)],
   resolved := [],
   store := [],
   nextPromise := 2 },
 { tasks := [{ id := 0, key := "a", phase := LockModel.Phase.reading 1 },
             { id := 1, key := "b", phase := LockModel.Phase.reading 0 }],
   keyLocks := [("atomic_b", 0), ("atomic_a", 1)],
   resolved := [],
   store := [],
   nextPromise := 2 },
 { tasks := [{ id := 0, key := "a", phase := LockModel.Phase.checking },
             { id := 1, key := "b", phase := LockModel.Phase.writing 0 [] }],
   keyLocks := [("atomic_b", 0)],
   resolved := [],
   store := [],
   nextPromise := 1 },
 { tasks := [{ id := 0, key := "a", phase := LockModel.Phase.finishing 0 },
             { id := 1, key := "b", phase := LockModel.Phase.checking }],
   keyLocks := [("atomic_a", 0)],
   resolved := [0],
   store := [("a", [0])],
   nextPromise := 1 },
 { tasks := [{ id := 0, key := "a", phase := LockModel.Phase.writing 0 [] },
             { id := 1, key := "b", phase := LockModel.Phase.reading 1 }],
   keyLocks := [("atomic_a", 0), ("atomic_b", 1)],
   resolved := [],
   store := [],
   nextPromise := 2 },
 { tasks := [{ id := 0, key := "a", phase := LockModel.Phase.reading 0 },
             { id := 1, key := "b", phase := LockModel.Phase.writing 1 [] }],
   keyLocks := [("atomic_a", 0), ("atomic_b", 1)],
   resolved := [],
   store := [],
   nextPromise := 2 },
 { tasks := [{ id := 0, key := "a", phase := LockModel.Phase.writing 1 [] },
             { id := 1, key := "b", phase := LockModel.Phase.reading 0 }],
   keyLocks := [("atomic_b", 0), ("atomic_a", 1)],
   resolved := [],
   store := [],
   nextPromise := 2 },
 { tasks := [{ id := 0, key := "a", phase := LockModel.Phase.reading 1 },
             { id := 1, key := "b", phase := LockModel.Phase.writing 0 [] }],
   keyLocks := [("atomic_b", 0), ("atomic_a", 1)],
   resolved := [],
   store := [],
   nextPromise := 2 },
 { tasks := [{ id := 0, key := "a", phase := LockModel.Phase.checking },
             { id := 1, key := "b", phase := LockModel.Phase.finishing 0 }],
   keyLocks := [("atomic_b", 0)],
   resolved := [0],
   store := [("b", [1])],
   nextPromise := 1 },
 { tasks := [{ id := 0, key := "a", phase := LockModel.Phase.done },
             { id := 1, key := "b", phase := LockModel.Phase.checking }],
   keyLocks := [],
   resolved := [0],
   store := [("a", [0])],
   nextPromise := 1 },
 { tasks := [{ id := 0, key := "a", phase := LockModel.Phase.finishing 0 },
             { id := 1, key := "b", phase := LockModel.Phase.reading 1 }],
   keyLocks := [("atomic_a", 0), ("atomic_b", 1)],
   resolved := [0],
   store := [("a", [0])],
   nextPromise := 2 },
 { tasks := [{ id := 0, key := "a", phase := LockModel.Phase.writing 0 [] },
             { id := 1, key := "b", phase := LockModel.Phase.writing 1 [] }],
   keyLocks := [("atomic_a", 0), ("atomic_b", 1)],
   resolved := [],
   store := [],
   nextPromise := 2 },
 { tasks := [{ id := 0, key := "a", phase := LockModel.Phase.reading 0 },
             { id := 1, key := "b", phase := LockModel.Phase.finishing 1 }],
   keyLocks := [("atomic_a", 0), ("atomic_b", 1)],
   resolved := [1],
   store := [("b", [1])],
   nextPromise := 2 },
 { tasks := [{ id := 0, key := "a", phase := LockModel.Phase.finishing 1 },
             { id := 1, key := "b", phase := LockModel.Phase.reading 0 }],
   keyLocks := [("atomic_b", 0), ("atomic_a", 1)],
   resolved := [1],
   store := [("a", [0])],
   nextPromise := 2 },
 { tasks := [{ id := 0, key := "a", phase := LockModel.Phase.writing 1 [] },
             { id := 1, key := "b", phase := LockModel.Phase.writing 0 [] }],
   keyLocks := [("atomic_b", 0), ("atomic_a", 1)],
   resolved := [],
   store := [],
   nextPromise := 2 },
 { tasks := [{ id := 0, key := "a", phase := LockModel.Phase.reading 1 },
             { id := 1, key := "b", phase := LockModel.Phase.finishing 0 }],
   keyLocks := [("atomic_b", 0), ("atomic_a", 1)],
   resolved := [0],
   store := [("b", [1])],
   nextPromise := 2 },
 { tasks := [{ id := 0, key := "a", phase := LockModel.Phase.checking },
             { id := 1, key := "b", phase := LockModel.Phase.done }],
   keyLocks := [],
   resolved := [0],
   store := [("b", [1])],
   nextPromise := 1 },
 { tasks := [{ id := 0, key := "a", phase := LockModel.Phase.done },
             { id := 1, key := "b", phase := LockModel.Phase.reading 1 }],
   keyLocks := [("atomic_b", 1)],
   resolved := [0],
   store := [("a", [0])],
   nextPromise := 2 },
 { tasks := [{ id := 0, key := "a", phase := LockModel.Phase.finishing 0 },
             { id := 1, key := "b", phase := LockModel.Phase.writing 1 [] }],
   keyLocks := [("atomic_a", 0), ("atomic_b", 1)],
   resolved := [0],
   store := [("a", [0])],
   nextPromise := 2 },
 { tasks := [{ id := 0, key := "a", phase := LockModel.Phase.writing 0 [] },
             { id := 1, key := "b", phase := LockModel.Phase.finishing 1 }],
   keyLocks := [("atomic_a", 0), ("atomic_b", 1)],
   resolved := [1],
   store := [("b", [1])],
   nextPromise := 2 },
 { tasks := [{ id := 0, key := "a", phase := LockModel.Phase.reading 0 },
             { id := 1, key := "b", phase := LockModel.Phase.done }],
   keyLocks := [("atomic_a", 0)],
   resolved := [1],
   store := [("b", [1])],
   nextPromise := 2 },
 { tasks := [{ id := 0, key := "a", phase := LockModel.Phase.done },
             { id := 1, key := "b", phase := LockModel.Phase.reading 0 }],
   keyLocks := [("atomic_b", 0)],
   resolved := [1],
   store := [("a", [0])],
   nextPromise := 2 },
 { tasks := [{ id := 0, key := "a", phase := LockModel.Phase.finishing 1 },
             { id := 1, key := "b", phase := LockModel.Phase.writing 0 [] }],
   keyLocks := [("atomic_b", 0), ("atomic_a", 1)],
   resolved := [1],
   store := [("a", [0])],
   nextPromise := 2 },
 { tasks := [{ id := 0, key := "a", phase := LockModel.Phase.writing 1 [] },
             { id := 1, key := "b", phase := LockModel.Phase.finishing 0 }],
   keyLocks := [("atomic_b", 0), ("atomic_a", 1)],
   resolved := [0],
   store := [("b", [1])],
   nextPromise := 2 },
 { tasks := [{ id := 0, key := "a", phase := LockModel.Phase.reading 1 },
             { id := 1, key := "b", phase := LockModel.Phase.done }],
   keyLocks := [("atomic_a", 1)],
   resolved := [0],
   store := [("b", [1])],
   nextPromise := 2 },
 { tasks := [{ id := 0, key := "a", phase := LockModel.Phase.done },
             { id := 1, key := "b", phase := LockModel.Phase.writing 1 [] }],
   keyLocks := [("atomic_b", 1)],
   resolved := [0],
   store := [("a", [0])],
   nextPromise := 2 },
 { tasks := [{ id := 0, key := "a", phase := LockModel.Phase.finishing 0 },
             { id := 1, key := "b", phase := LockModel.Phase.finishing 1 }],
   keyLocks := [("atomic_a", 0), ("atomic_b", 1)],
   resolved := [1, 0],
   store := [("a", [0]), ("b", [1])],
   nextPromise := 2 },
 { tasks := [{ id := 0, key := "a", phase := LockModel.Phase.finishing 0 },
             { id := 1, key := "b", phase := LockModel.Phase.finishing 1 }],
   keyLocks := [("atomic_a", 0), ("atomic_b", 1)],
   resolved := [0, 1],
   store := [("b", [1]), ("a", [0])],
   nextPromise := 2 },
 { tasks := [{ id := 0, key := "a", phase := LockModel.Phase.writing 0 [] },
             { id := 1, key := "b", phase := LockModel.Phase.done }],
   keyLocks := [("atomic_a", 0)],
   resolved := [1],
   store := [("b", [1])],
   nextPromise := 2 },
 { tasks := [{ id := 0, key := "a", phase := LockModel.Phase.done },
             { id := 1, key := "b", phase := LockModel.Phase.writing 0 [] }],
   keyLocks := [("atomic_b", 0)],
   resolved := [1],
   store := [("a", [0])],
   nextPromise := 2 },
 { tasks := [{ id := 0, key := "a", phase := LockModel.Phase.finishing 1 },
             { id := 1, key := "b", phase := LockModel.Phase.finishing 0 }],
   keyLocks := [("atomic_b", 0), ("atomic_a", 1)],
   resolved := [0, 1],
   store := [("a", [0]), ("b", [1])],
   nextPromise := 2 },
 { tasks := [{ id := 0, key := "a", phase := LockModel.Phase.finishing 1 },
             { id := 1, key := "b", phase := LockModel.Phase.finishing 0 }],
   keyLocks := [("atomic_b", 0), ("atomic_a", 1)],
   resolved := [1, 0],
   store := [("b", [1]), ("a", [0])],
   nextPromise := 2 },
 { tasks := [{ id := 0, key := "a", phase := LockModel.Phase.writing 1 [] },
             { id := 1, key := "b", phase := LockModel.Phase.done }],
   keyLocks := [("atomic_a", 1)],
   resolved := [0],
   store := [("b", [1])],
   nextPromise := 2 },
 { tasks := [{ id := 0, key := "a", phase := LockModel.Phase.done },
             { id := 1, key := "b", phase := LockModel.Phase.finishing 1 }],
   keyLocks := [("atomic_b", 1)],
   resolved := [1, 0],
   store := [("a", [0]), ("b", [1])],
   nextPromise := 2 },
 { tasks := [{ id := 0, key := "a", phase := LockModel.Phase.finishing 0 },
             { id := 1, key := "b", phase := LockModel.Phase.done }],
   keyLocks := [("atomic_a", 0)],
   resolved := [1, 0],
   store := [("a", [0]), ("b", [1])],
   nextPromise := 2 },
 { tasks := [{ id := 0, key := "a", phase := LockModel.Phase.done },
             { id := 1, key := "b", phase := LockModel.Phase.finishing 1 }],
   keyLocks := [("atomic_b", 1)],
   resolved := [0, 1],
   store := [("b", [1]), ("a", [0])],
   nextPromise := 2 },
 { tasks := [{ id := 0, key := "a", phase := LockModel.Phase.finishing 0 },
             { id := 1, key := "b", phase := LockModel.Phase.done }],
   keyLocks := [("atomic_a", 0)],
   resolved := [0, 1],
   store := [("b", [1]), ("a", [0])],
   nextPromise := 2 },
 { tasks := [{ id := 0, key := "a", phase := LockModel.Phase.done },
             { id := 1, key := "b", phase := LockModel.Phase.finishing 0 }],
   keyLocks := [("atomic_b", 0)],
   resolved := [0, 1],
   store := [("a", [0]), ("b", [1])],
   nextPromise := 2 },
 { tasks := [{ id := 0, key := "a", phase := LockModel.Phase.finishing 1 },
             { id := 1, key := "b", phase := LockModel.Phase.done }],
   keyLocks := [("atomic_a", 1)],
   resolved := [0, 1],
   store := [("a", [0]), ("b", [1])],
   nextPromise := 2 },
 { tasks := [{ id := 0, key := "a", phase := LockModel.Phase.done },
             { id := 1, key := "b", phase := LockModel.Phase.finishing 0 }],
   keyLocks := [("atomic_b", 0)],
   resolved := [1, 0],
   store := [("b", [1]), ("a", [0])],
   nextPromise := 2 },
 { tasks := [{ id := 0, key := "a", phase := LockModel.Phase.finishing 1 },
             { id := 1, key := "b", phase := LockModel.Phase.done }],
   keyLocks := [("atomic_a", 1)],
   resolved := [1, 0],
   store := [("b", [1]), ("a", [0])],
   nextPromise := 2 },
 { tasks := [{ id := 0, key := "a", phase := LockModel.Phase.done },
             { id := 1, key := "b", phase := LockModel.Phase.done }],
   keyLocks := [],
   resolved := [1, 0],
   store := [("a", [0]), ("b", [1])],
   nextPromise := 2 },
 { tasks := [{ id := 0, key := "a", phase := LockModel.Phase.done },
             { id := 1, key := "b", phase := LockModel.Phase.done }],
   keyLocks := [],
   resolved := [0, 1],
   store := [("b", [1]), ("a", [0])],
   nextPromise := 2 },
 { tasks := [{ id := 0, key := "a", phase := LockModel.Phase.done },
             { id := 1, key := "b", phase := LockModel.Phase.done }],
   keyLocks := [],
   resolved := [0, 1],
   store := [("a", [0]), ("b", [1])],
   nextPromise := 2 },
 { tasks := [{ id := 0, key := "a", phase := LockModel.Phase.done },
             { id := 1, key := "b", phase := LockModel.Phase.done }],
   keyLocks := [],
   resolved := [1, 0],
   store := [("b", [1]), ("a", [0])],
   nextPromise := 2 }]

end LockModel

namespace LockModel

/-- Boolean membership in a list of system states. -/
def memB (R : List Sys) (s : Sys) : Bool :=
  R.any (fun x => decide (x = s))

/-- Finite invariant check for a two-task system: every state of `R` has
two tasks, avoids `bad`, and every enabled step from it stays in `R`. -/
def invCheck (R : List Sys) (bad : Sys → Bool) : Bool :=
  R.all (fun s =>
    s.tasks.length == 2 && !bad s &&
    (List.range 2).all (fun i =>
      match step s i with
      | none => true
      | some s2 => memB R s2))

/-- The violation predicate checked over `R2`: two same-key updates in
flight, or a completed run whose final history under `"k"` is not one of
the two serializations (`[1, 0]` = task 0 then task 1, `[0, 1]` = task 1
then task 0, each observing the other's result). -/
def badSameKey (s : Sys) : Bool :=
  twoInFlightSameKey s ||
    (allDone s &&
      !(lookup s.store "k" == some [1, 0] || lookup s.store "k" == some [0, 1]))

end LockModel

/-- The record with key `k` that `bulkPut` leaves visible under `k`: the
last element of the put list whose key is `k`, if any. -/
def lastWithKey (rs : List StorageRecord) (k : String) : Option StorageRecord :=
  match rs with
  | [] => none
  | r :: rest =>
    match lastWithKey rest k with
    | some y => some y
    | none => if r.key == k then some r else none

/-- The value of the last `set` entry for key `k` (with a defined value)
in a batch, if any. -/
def lastSetFor (ops : List BatchOp) (k : String) : Option String :=
  match ops with
  | [] => none
  | o :: rest =>
    match lastSetFor rest k with
    | some v => some v
    | none =>
      match o.operation, o.value with
      | .set, some v => if o.key == k then some v else none
      | _, _ => none

/-- Whether the batch contains a `remove` entry for key `k`. -/
def hasRemoveFor (ops : List BatchOp) (k : String) : Bool :=
  ops.any (fun o => o.key == k && o.operation == .remove)

/-- Modelled from the spec's words, as the refinement reference for the
`batchUpdate` ordering claim: apply the operations to a staging copy of
the table in list order (`set` with a defined value upserts, `remove`
deletes), so the last occurrence of a key in list order wins. -/
def specBatchStaged (t : Table) (ops : List BatchOp) (now : Nat) : Table :=
  ops.foldl (fun acc o =>
    match o.operation, o.value with
    | .set, some v => acc.put ⟨o.key, v, some now⟩
    | .set, none => acc
    | .remove, _ => acc.del o.key) t

/-! ## Helper lemmas about the table -/

theorem Table.find?_filter_same (t : Table) (k : String) :
    (t.filter (fun r0 => r0.key != k)).find? (fun r => r.key == k) = none := by
  rw [List.find?_eq_none]
  intro r hr
  have := List.of_mem_filter hr
  simp only [bne_iff_ne, ne_eq, decide_eq_true_eq] at this ⊢
  simpa using this

theorem Table.find?_filter_ne (t : Table) (k0 k : String) (h : k ≠ k0) :
    (t.filter (fun r0 => r0.key != k0)).find? (fun r => r.key == k)
      = t.find? (fun r => r.key == k) := by
  induction t with
  | nil => rfl
  | cons a t ih =>
    by_cases hb : a.key = k0
    · have hak : a.key ≠ k := fun hh => h (hh ▸ hb)
      simp [List.filter_cons, List.find?_cons, hb, hak, ih, Ne.symm h]
    · simp only [List.filter_cons]
      have hbb : (a.key != k0) = true := by simp [hb]
      rw [hbb]
      simp only [if_true]
      rw [List.find?_cons, List.find?_cons]
      cases hak : ((fun r => r.key == k) a) <;> simp [ih]

theorem Table.get_put_same (t : Table) (r : StorageRecord) :
    (t.put r).get r.key = some r := by
  unfold Table.put Table.get
  rw [List.find?_append, Table.find?_filter_same]
  simp [List.find?_cons]

theorem Table.get_put_ne (t : Table) (r : StorageRecord) (k : String)
    (h : k ≠ r.key) : (t.put r).get k = t.get k := by
  unfold Table.put Table.get
  rw [List.find?_append]
  have h2 : List.find? (fun r0 => r0.key == k) [r] = none := by
    simp [List.find?_cons, Ne.symm h]
  rw [h2, Table.find?_filter_ne t r.key k h]
  cases List.find? (fun r => r.key == k) t <;> rfl

theorem Table.get_del_same (t : Table) (k : String) :
    (t.del k).get k = none := by
  unfold Table.del Table.get
  exact Table.find?_filter_same t k

theorem Table.get_del_ne (t : Table) (k0 k : String) (h : k ≠ k0) :
    (t.del k0).get k = t.get k := by
  unfold Table.del Table.get
  exact Table.find?_filter_ne t k0 k h

theorem Table.get_bulkPut (t : Table) (rs : List StorageRecord) (k : String) :
    (t.bulkPut rs).get k =
      match lastWithKey rs k with
      | some r => some r
      | none => t.get k := by
  induction rs generalizing t with
  | nil => simp [Table.bulkPut, lastWithKey]
  | cons r rest ih =>
    show (Table.bulkPut (t.put r) rest).get k = _
    rw [ih]
    cases hlast : lastWithKey rest k with
    | some y => simp [lastWithKey, hlast]
    | none =>
      by_cases hk : r.key = k
      · subst hk
        simp [lastWithKey, hlast, Table.get_put_same]
      · have hf : (r.key == k) = false := by simpa using hk
        simp [lastWithKey, hlast, hf, Table.get_put_ne t r k (Ne.symm hk)]

theorem Table.get_bulkDelete (t : Table) (ks : List String) (k : String) :
    (t.bulkDelete ks).get k = if k ∈ ks then none else t.get k := by
  induction ks generalizing t with
  | nil => simp [Table.bulkDelete]
  | cons k0 rest ih =>
    show (Table.bulkDelete (t.del k0) rest).get k = _
    rw [ih]
    by_cases hmem : k ∈ rest
    · simp [hmem]
    · by_cases hk : k = k0
      · subst hk
        simp [hmem, Table.get_del_same]
      · simp [hmem, hk, Table.get_del_ne t k0 k hk]

theorem Table.get_bulkPut_not_mem (t : Table) (rs : List StorageRecord)
    (k : String) (h : ∀ r ∈ rs, r.key ≠ k) :
    (t.bulkPut rs).get k = t.get k := by
  rw [Table.get_bulkPut]
  have hnone : lastWithKey rs k = none := by
    induction rs with
    | nil => simp [lastWithKey]
    | cons r rest ih =>
      have hr : r.key ≠ k := h r (by simp)
      have hrest := ih (fun x hx => h x (by simp [hx]))
      simp [lastWithKey, hrest, hr]
  simp [hnone]

/-! ## Helper lemmas about `batchUpdate`'s staging -/

theorem lastWithKey_batchUpdates (ops : List BatchOp) (now : Nat) (k : String) :
    lastWithKey (batchUpdates ops now) k
      = (lastSetFor ops k).map (fun v => ⟨k, v, some now⟩) := by
  induction ops with
  | nil => simp [batchUpdates, lastWithKey, lastSetFor]
  | cons o rest ih =>
    cases hop : o.operation with
    | set =>
      cases hv : o.value with
      | none =>
        have hstep : lastSetFor (o :: rest) k = lastSetFor rest k := by
          simp only [lastSetFor, hop, hv]
          cases lastSetFor rest k <;> rfl
        have hupd : batchUpdates (o :: rest) now = batchUpdates rest now := by
          simp [batchUpdates, List.filterMap_cons, hop, hv]
        rw [hupd, hstep]
        exact ih
      | some v =>
        simp only [batchUpdates, List.filterMap_cons, hop, hv]
        show lastWithKey (⟨o.key, v, some now⟩ :: batchUpdates rest now) k = _
        rw [lastWithKey, ih]
        cases hls : lastSetFor rest k with
        | some w => simp [lastSetFor, hop, hv, hls]
        | none =>
          by_cases hk : o.key = k
          · subst hk
            simp [lastSetFor, hop, hv, hls]
          · have hkf : (o.key == k) = false := by simpa using hk
            simp [lastSetFor, hop, hv, hls, hkf]
    | remove =>
      have hstep : lastSetFor (o :: rest) k = lastSetFor rest k := by
        simp only [lastSetFor, hop]
        cases lastSetFor rest k <;> cases o.value <;> rfl
      have hupd : batchUpdates (o :: rest) now = batchUpdates rest now := by
        cases hv : o.value <;> simp [batchUpdates, List.filterMap_cons, hop, hv]
      rw [hupd, hstep]
      exact ih

theorem mem_batchDeletions (ops : List BatchOp) (k : String) :
    k ∈ batchDeletions ops ↔ hasRemoveFor ops k = true := by
  simp only [batchDeletions, hasRemoveFor, List.mem_filterMap, List.any_eq_true]
  constructor
  · rintro ⟨o, ho, hsome⟩
    cases hop : o.operation with
    | set => rw [hop] at hsome; cases hsome
    | remove =>
      rw [hop] at hsome
      have hk : o.key = k := by injection hsome
      exact ⟨o, ho, by simp [hop, hk]⟩
  · rintro ⟨o, ho, hcond⟩
    have hk : o.key = k ∧ o.operation = .remove := by
      cases hop : o.operation with
      | set => simp [hop] at hcond
      | remove =>
        simp [hop] at hcond
        exact ⟨hcond, rfl⟩
    exact ⟨o, ho, by rw [hk.2]; simp [hk.1]⟩

/-! ## C4 — `batchUpdate` ordering -/

/-- **C4 (counterexample).**  The claim says the last occurrence of a key in
list order determines its final state, so in
`[{key:'a', remove}, {key:'a', set, value:'1'}]` the later `set` should
win and leave `'a' ↦ '1'` (as the spec-words staging model
`specBatchStaged` indeed does).  The code instead performs all `bulkPut`s
first and all `bulkDelete`s second, so the `remove` wins and `'a'` ends
absent: `batchUpdate` disagrees with the claimed last-occurrence-wins
semantics at this input. -/
theorem claim4_counterexample :
    batchTable [] [⟨"a", .remove, none⟩, ⟨"a", .set, some "1"⟩] 5 = [] ∧
    (batchTable [] [⟨"a", .remove, none⟩, ⟨"a", .set, some "1"⟩] 5).get "a"
      = none ∧
    (specBatchStaged [] [⟨"a", .remove, none⟩, ⟨"a", .set, some "1"⟩] 5).get "a"
      = some ⟨"a", "1", some 5⟩ ∧
    (batchTable [] [⟨"a", .remove, none⟩, ⟨"a", .set, some "1"⟩] 5).get "a"
      ≠ (specBatchStaged [] [⟨"a", .remove, none⟩, ⟨"a", .set, some "1"⟩] 5).get "a" := by
  refine ⟨rfl, rfl, rfl, ?_⟩
  decide

/-- **C4 (amended).**  All operations of a `batchUpdate` are applied in one
transactional scope, but when a key occurs several times the final state
is NOT determined by the last occurrence in list order: the loop stages
every defined-value `set` into one `bulkPut` and every `remove` into one
`bulkDelete`, and the deletions are applied after the puts.  Hence, per
key: any `remove` entry for the key makes it absent (regardless of
position); otherwise the last `set` entry with a defined value wins;
otherwise the key is untouched. -/
theorem claim4_amended (t : Table) (ops : List BatchOp) (now : Nat) (k : String) :
    (batchTable t ops now).get k =
      if hasRemoveFor ops k then none
      else
        match lastSetFor ops k with
        | some v => some ⟨k, v, some now⟩
        | none => t.get k := by
  unfold batchTable
  rw [Table.get_bulkDelete]
  by_cases hrem : hasRemoveFor ops k = true
  · simp [hrem, (mem_batchDeletions ops k).mpr hrem]
  · have hnotmem : k ∉ batchDeletions ops :=
      fun hmem => hrem ((mem_batchDeletions ops k).mp hmem)
    rw [if_neg hnotmem, if_neg hrem, Table.get_bulkPut,
        lastWithKey_batchUpdates]
    cases lastSetFor ops k <;> rfl

/-! ## C9 — `set` entries with an undefined value are skipped -/

/-- **C9 (confirmed).**  A batch entry `{key, operation:'set'}` whose
`value` is `undefined` matches neither staging branch of `batchUpdate`'s
loop: the whole call behaves exactly as if the entry were not in the list
(same resulting state, same success/failure), while all other entries are
still applied. -/
theorem claim9_set_undefined_skipped (p : Provider) (l1 l2 : List BatchOp)
    (k : String) (now : Nat) (engineFail : Bool) :
    batchUpdate p (l1 ++ ⟨k, .set, none⟩ :: l2) now engineFail
      = batchUpdate p (l1 ++ l2) now engineFail := by
  have hupd : batchUpdates (l1 ++ ⟨k, .set, none⟩ :: l2) now
      = batchUpdates (l1 ++ l2) now := by
    simp [batchUpdates, List.filterMap_append, List.filterMap_cons]
  have hdel : batchDeletions (l1 ++ ⟨k, .set, none⟩ :: l2)
      = batchDeletions (l1 ++ l2) := by
    simp [batchDeletions, List.filterMap_append, List.filterMap_cons]
  unfold batchUpdate batchTable
  rw [hupd, hdel]

/-! ## Helper lemmas about the retry engine -/

theorem performAtomicUpdateErr_name {key : String} {raw : Option AErr} {e : AErr}
    (h : performAtomicUpdateErr key raw = some e) : e.name = "Error" := by
  cases raw with
  | none => simp [performAtomicUpdateErr] at h
  | some e0 =>
    simp only [performAtomicUpdateErr] at h
    split at h <;> (cases h; rfl)

theorem retryGo_no_backoff (key : String) (env : AtomicEnv) (maxR : Nat) :
    ∀ fuel attempt le,
      hasBackoff (retryGo key env maxR fuel attempt le).1 = false := by
  intro fuel
  induction fuel with
  | zero => intro attempt le; simp [retryGo, hasBackoff]
  | succ n ih =>
    intro attempt le
    cases h : performAtomicUpdateErr key (env.tx attempt) with
    | none => simp [retryGo, h, hasBackoff]
    | some e =>
      have hn := performAtomicUpdateErr_name h
      simp only [retryGo, h]
      rw [if_neg (show ¬(e.name = "PrematureCommitError" ∧ attempt < maxR) by
            simp [hn])]
      by_cases hm : attempt = maxR
      · rw [if_pos hm]
        cases performSimpleUpdateErr key env.simpleOutcome <;> simp [hasBackoff]
      · rw [if_neg hm]
        simpa [hasBackoff] using ih (attempt + 1) (some e)

/-! ## C1 — backoff before retrying a transient commit conflict -/

/-- **C1 (bug in the code).**  The claim (and the code's own comments at
the backoff branch) say a transient `PrematureCommitError` is retried
after an exponential-backoff wait.  But `_performAtomicUpdate` re-wraps
every error it catches — including `PrematureCommitError` — into a
generic `new Error(...)` whose `name` is `"Error"`, so the retry loop's
check `error.name === 'PrematureCommitError'` can never succeed and the
backoff branch is unreachable.  First conjunct: NO execution of the retry
engine ever performs a backoff wait, whatever the engine outcomes.
Remaining conjuncts evaluate the failing input — a transient commit
conflict on attempt 1, success on attempt 2: the engine retries
immediately with no backoff event in the trace (the claim requires a
100 ms wait between the two attempts). -/
theorem claim1_backoff_unreachable :
    (∀ (key : String) (env : AtomicEnv) (maxR : Nat),
       hasBackoff (performAtomicUpdateWithRetry key env maxR).1 = false) ∧
    (performAtomicUpdateWithRetry "k"
        ⟨[some ⟨"PrematureCommitError", "conflict"⟩], none⟩).1
      = [.txAttempt 1 (some ⟨"Error",
           "Database transaction error for key k: conflict. Please try again."⟩),
         .txAttempt 2 none] ∧
    (performAtomicUpdateWithRetry "k"
        ⟨[some ⟨"PrematureCommitError", "conflict"⟩], none⟩).2 = .ok () :=
  ⟨fun key env maxR => retryGo_no_backoff key env maxR maxR 1 none,
   by decide, rfl⟩

/-! ## C3 — immediate fallback on non-transient failures? -/

/-- **C3 (counterexample).**  The claim says a non-transient failure of a
transactional attempt triggers the fallback simple update immediately,
with no further transactional attempts.  Input: the first transactional
attempt fails with a non-transient `ConstraintError`, the second
succeeds.  The code performs a second transactional attempt and never
runs the fallback — the trace is exactly two transactional attempts. -/
theorem claim3_counterexample :
    hasTxAttempt (performAtomicUpdateWithRetry "k"
        ⟨[some ⟨"ConstraintError", "boom"⟩], none⟩).1 2 = true ∧
    hasFallback (performAtomicUpdateWithRetry "k"
        ⟨[some ⟨"ConstraintError", "boom"⟩], none⟩).1 = false ∧
    (performAtomicUpdateWithRetry "k"
        ⟨[some ⟨"ConstraintError", "boom"⟩], none⟩).1
      = [.txAttempt 1 (some ⟨"Error", "Failed to perform atomic update: k"⟩),
         .txAttempt 2 none] := by
  refine ⟨?_, ?_, ?_⟩ <;> decide

/-- **C3 (amended).**  A failed transactional attempt — transient or not —
is followed by an immediate transactional retry (no backoff wait, no
fallback) while attempts remain; the fallback simple update runs exactly
when all `maxRetries = 3` transactional attempts have failed.  The whole
trace is characterised given that attempt 1 failed. -/
theorem claim3_amended (key : String) (env : AtomicEnv) (e1 : AErr)
    (h1 : performAtomicUpdateErr key (env.tx 1) = some e1) :
    (performAtomicUpdateWithRetry key env).1 =
      .txAttempt 1 (some e1) ::
        (match performAtomicUpdateErr key (env.tx 2) with
         | none => [.txAttempt 2 none]
         | some e2 =>
           .txAttempt 2 (some e2) ::
             (match performAtomicUpdateErr key (env.tx 3) with
              | none => [.txAttempt 3 none]
              | some e3 =>
                [.txAttempt 3 (some e3),
                 .fallbackAttempt (performSimpleUpdateErr key env.simpleOutcome)])) := by
  have hn1 := performAtomicUpdateErr_name h1
  cases h2 : performAtomicUpdateErr key (env.tx 2) with
  | none => simp [performAtomicUpdateWithRetry, retryGo, h1, h2, hn1]
  | some e2 =>
    have hn2 := performAtomicUpdateErr_name h2
    cases h3 : performAtomicUpdateErr key (env.tx 3) with
    | none => simp [performAtomicUpdateWithRetry, retryGo, h1, h2, h3, hn1, hn2]
    | some e3 =>
      have hn3 := performAtomicUpdateErr_name h3
      cases hs : performSimpleUpdateErr key env.simpleOutcome with
      | none =>
        simp [performAtomicUpdateWithRetry, retryGo, h1, h2, h3, hs, hn1, hn2, hn3]
      | some fe =>
        simp [performAtomicUpdateWithRetry, retryGo, h1, h2, h3, hs, hn1, hn2, hn3]

/-- Witness for `claim3_amended`: the non-transient single failure above,
where the characterisation yields an immediate second transactional
attempt and no fallback. -/
theorem claim3_amended_witness :
    (performAtomicUpdateWithRetry "k"
        ⟨[some ⟨"ConstraintError", "boom"⟩], none⟩).1
      = [.txAttempt 1 (some ⟨"Error", "Failed to perform atomic update: k"⟩),
         .txAttempt 2 none] := by
  rw [claim3_amended "k" ⟨[some ⟨"ConstraintError", "boom"⟩], none⟩
        ⟨"Error", "Failed to perform atomic update: k"⟩ (by decide)]
  decide

/-! ## C6 — outcome after the transactional attempts are exhausted -/

/-- **C6 (confirmed).**  When all three transactional attempts fail: a
successful fallback simple update makes the whole `atomicUpdate` resolve
successfully, and a failed fallback makes it reject with `lastError`,
the error of the last (third) transactional attempt — not the fallback's
own error. -/
theorem claim6_exhausted_outcome (key : String) (env : AtomicEnv)
    (e1 e2 e3 : AErr)
    (h1 : performAtomicUpdateErr key (env.tx 1) = some e1)
    (h2 : performAtomicUpdateErr key (env.tx 2) = some e2)
    (h3 : performAtomicUpdateErr key (env.tx 3) = some e3) :
    (env.simpleOutcome = none →
       (performAtomicUpdateWithRetry key env).2 = .ok ()) ∧
    (∀ fe, env.simpleOutcome = some fe →
       (performAtomicUpdateWithRetry key env).2 = .error e3) := by
  have hn1 := performAtomicUpdateErr_name h1
  have hn2 := performAtomicUpdateErr_name h2
  have hn3 := performAtomicUpdateErr_name h3
  constructor
  · intro hs
    simp [performAtomicUpdateWithRetry, retryGo, performSimpleUpdateErr,
          h1, h2, h3, hs, hn1, hn2, hn3]
  · intro fe hs
    simp [performAtomicUpdateWithRetry, retryGo, performSimpleUpdateErr,
          h1, h2, h3, hs, hn1, hn2, hn3]

/-- Witness for `claim6_exhausted_outcome`: three failing attempts (the
third a transient conflict) with, on one hand, a succeeding fallback
(whole call succeeds) and, on the other, a failing fallback (the call
rejects with the third attempt's wrapped error, not the fallback's
`Failed to perform simple update` error). -/
theorem claim6_exhausted_outcome_witness :
    (performAtomicUpdateWithRetry "k"
        ⟨[some ⟨"A", "a"⟩, some ⟨"B", "b"⟩,
          some ⟨"PrematureCommitError", "c"⟩], none⟩).2 = .ok () ∧
    (performAtomicUpdateWithRetry "k"
        ⟨[some ⟨"A", "a"⟩, some ⟨"B", "b"⟩,
          some ⟨"PrematureCommitError", "c"⟩], some ⟨"X", "y"⟩⟩).2
      = .error ⟨"Error",
          "Database transaction error for key k: c. Please try again."⟩ :=
  ⟨(claim6_exhausted_outcome "k"
      ⟨[some ⟨"A", "a"⟩, some ⟨"B", "b"⟩,
        some ⟨"PrematureCommitError", "c"⟩], none⟩
      ⟨"Error", "Failed to perform atomic update: k"⟩
      ⟨"Error", "Failed to perform atomic update: k"⟩
      ⟨"Error", "Database transaction error for key k: c. Please try again."⟩
      (by decide) (by decide) (by decide)).1 rfl,
   (claim6_exhausted_outcome "k"
      ⟨[some ⟨"A", "a"⟩, some ⟨"B", "b"⟩,
        some ⟨"PrematureCommitError", "c"⟩], some ⟨"X", "y"⟩⟩
      ⟨"Error", "Failed to perform atomic update: k"⟩
      ⟨"Error", "Failed to perform atomic update: k"⟩
      ⟨"Error", "Database transaction error for key k: c. Please try again."⟩
      (by decide) (by decide) (by decide)).2 ⟨"X", "y"⟩ rfl⟩

namespace LockModel

/-! ## C2 — per-key mutual exclusion of `atomicUpdate` -/

theorem step_none_of_le (s : Sys) (i : Nat) (h : s.tasks.length ≤ i) :
    step s i = none := by
  unfold step
  rw [List.get?_eq_none.mpr h]

theorem mem_of_memB {R : List Sys} {s : Sys} (h : memB R s = true) : s ∈ R := by
  simp only [memB, List.any_eq_true, decide_eq_true_eq] at h
  obtain ⟨x, hx, rfl⟩ := h
  exact hx

theorem memB_of_mem {R : List Sys} {s : Sys} (h : s ∈ R) : memB R s = true := by
  simp only [memB, List.any_eq_true, decide_eq_true_eq]
  exact ⟨s, h, rfl⟩

theorem invCheck_spec {R : List Sys} {bad : Sys → Bool}
    (hR : invCheck R bad = true) :
    ∀ s, memB R s = true →
      bad s = false ∧ ∀ i, memB R ((step s i).getD s) = true := by
  intro s hs
  have hall := List.all_eq_true.mp hR s (mem_of_memB hs)
  simp only [Bool.and_eq_true, beq_iff_eq, Bool.not_eq_true',
             List.all_eq_true] at hall
  obtain ⟨⟨hlen, hbad⟩, hsucc⟩ := hall
  refine ⟨hbad, ?_⟩
  intro i
  by_cases hi : i < 2
  · have hstepmem := hsucc i (by simpa [List.mem_range] using hi)
    cases hstep : step s i with
    | none => simpa using hs
    | some s2 =>
      rw [hstep] at hstepmem
      simpa using hstepmem
  · rw [step_none_of_le s i (by rw [hlen]; omega)]
    simpa using hs

theorem run_memB {R : List Sys} {bad : Sys → Bool}
    (hR : invCheck R bad = true) :
    ∀ (choices : List Nat) (s : Sys), memB R s = true →
      memB R (run s choices) = true := by
  intro choices
  induction choices with
  | nil => intro s hs; simpa [run] using hs
  | cons i rest ih =>
    intro s hs
    rw [run]
    exact ih _ ((invCheck_spec hR s hs).2 i)

theorem run_not_bad {R : List Sys} {bad : Sys → Bool}
    (hR : invCheck R bad = true) {s0 : Sys} (h0 : memB R s0 = true)
    (choices : List Nat) : bad (run s0 choices) = false :=
  (invCheck_spec hR _ (run_memB hR choices s0 h0)).1

theorem R2_invCheck : invCheck R2 badSameKey = true := by decide

theorem Rd_invCheck : invCheck Rd someWaiting = true := by decide

theorem ce2_in_R2 : memB R2 ce2 = true := by decide

theorem cd2_in_Rd : memB Rd cd2 = true := by decide

/-- **C2 (counterexample).**  Three concurrent `atomicUpdate` callers on
the same key `"k"`, each updater `i` recording itself as `i :: read
value`.  Under the scheduled interleaving `ceMid` — which follows the
source's actual promise semantics: callers 1 and 2 both find caller 0's
`lockPromise` in `keyLocks` and both `await` it, and its resolution
releases BOTH — callers 1 and 2 end up with updates in flight at the
same time, violating "at most one atomic-update operation per key
executes at a time".  Running on to completion (`ceFull`), the final
stored history is `[2, 0]`: the third caller's transformation observed
the first caller's result, not the second's, and caller 1's update is
lost — refuting "the Nth queued caller observes the (N-1)th's result". -/
theorem claim2_counterexample :
    twoInFlightSameKey (run ce3 ceMid) = true ∧
    allDone (run ce3 ceFull) = true ∧
    lookup (run ce3 ceFull).store "k" = some [2, 0] := by
  refine ⟨?_, ?_, ?_⟩ <;> decide

/-- **C2 (amended).**  What the `keyLocks` discipline does guarantee,
over EVERY schedule: (a) with two concurrent callers on the same key,
updates never overlap — at most one is in flight at a time; (b) when both
complete, the final history is one caller's id consed onto the other's
result, i.e. the second-serialized caller observed the first's result
(`[1, 0]` or `[0, 1]`, no lost update); (c) two callers on distinct keys
never wait on each other's lock promise (no cross-key blocking).  With
three or more callers the guarantee fails, as `claim2_counterexample`
shows. -/
theorem claim2_amended :
    (∀ choices, twoInFlightSameKey (run ce2 choices) = false) ∧
    (∀ choices, allDone (run ce2 choices) = true →
       lookup (run ce2 choices).store "k" = some [1, 0] ∨
       lookup (run ce2 choices).store "k" = some [0, 1]) ∧
    (∀ choices, someWaiting (run cd2 choices) = false) := by
  refine ⟨?_, ?_, ?_⟩
  · intro choices
    have hb := run_not_bad R2_invCheck ce2_in_R2 choices
    simp only [badSameKey, Bool.or_eq_false_iff] at hb
    exact hb.1
  · intro choices hdone
    have hb := run_not_bad R2_invCheck ce2_in_R2 choices
    simp only [badSameKey, hdone, Bool.or_eq_false_iff, Bool.true_and,
               Bool.not_eq_false', Bool.or_eq_true, beq_iff_eq] at hb
    exact hb.2
  · intro choices
    exact run_not_bad Rd_invCheck cd2_in_Rd choices

/-- Witness for `claim2_amended`: the schedule that runs caller 0 to
completion and then caller 1; both complete and the history is `[1, 0]`. -/
theorem claim2_amended_witness :
    lookup (run ce2 [0, 0, 0, 0, 1, 1, 1, 1]).store "k" = some [1, 0] ∨
    lookup (run ce2 [0, 0, 0, 0, 1, 1, 1, 1]).store "k" = some [0, 1] :=
  claim2_amended.2.1 [0, 0, 0, 0, 1, 1, 1, 1] (by decide)

end LockModel

/-! ## C5 — `getStorageInfo` failure policy -/

/-- **C5 (counterexample).**  The claim says `getStorageInfo` never
raises and returns the zero result even when store initialization has
failed.  But `await this.initialize()` sits outside its try/catch: on a
provider whose one-time open rejected, `getStorageInfo` propagates the
initialization error instead of returning `{0, 0, null}`. -/
theorem claim5_counterexample :
    getStorageInfo ⟨some ⟨"UnknownError", "db open failed"⟩, []⟩ false
      = .error ⟨"UnknownError", "db open failed"⟩ ∧
    getStorageInfo ⟨some ⟨"UnknownError", "db open failed"⟩, []⟩ false
      ≠ .ok ⟨0, 0, none⟩ :=
  ⟨rfl, fun h => Except.noConfusion h⟩

/-- **C5 (amended).**  After a successful initialization,
`getStorageInfo` never raises: any failure of the statistics queries is
swallowed and the zero result `{itemCount: 0, estimatedSize: 0,
lastUpdated: null}` is returned; the success path returns the computed
statistics.  (If the one-time open failed, the initialization error
propagates, like every other operation.) -/
theorem claim5_amended (p : Provider) (h : p.dbOpened = none) :
    getStorageInfo p true = .ok ⟨0, 0, none⟩ ∧
    ∀ engineFail, ∃ info, getStorageInfo p engineFail = .ok info := by
  refine ⟨by simp [getStorageInfo, h], ?_⟩
  intro ef
  cases ef
  · exact ⟨⟨p.table.length, (p.table.map (fun r => r.value.length)).sum,
            p.table.lastUpdated⟩, by simp [getStorageInfo, h]⟩
  · exact ⟨⟨0, 0, none⟩, by simp [getStorageInfo, h]⟩

/-- Witness for `claim5_amended`: an empty store with a successful open
returns the zero result when the statistics queries fail. -/
theorem claim5_amended_witness :
    getStorageInfo ⟨none, []⟩ true = .ok ⟨0, 0, none⟩ :=
  (claim5_amended ⟨none, []⟩ rfl).1

/-! ## C7 — a failed one-time open fails every operation -/

/-- **C7 (confirmed).**  The constructor stores the one-time open's
promise; if the open rejected with `e`, every operation that awaits
initialization — all of them, `getStorageInfo` included — rejects
immediately with that same error `e`, and nothing ever retries the open
(`dbOpened` is never re-assigned; the model's operations take the stored
value as-is). -/
theorem claim7_init_failure_propagates (p : Provider) (e : AErr)
    (h : p.dbOpened = some e) :
    (∀ k ef, getItem p k ef = .error e) ∧
    (∀ k v now ef, setItem p k v now ef = .error e) ∧
    (∀ k ef, removeItem p k ef = .error e) ∧
    (∀ ef, clearAll p ef = .error e) ∧
    (∀ key env, atomicUpdate p key env = .error e) ∧
    (∀ key env, updateData p key env = .error e) ∧
    (∀ ops now ef, batchUpdate p ops now ef = .error e) ∧
    (∀ ef, getStorageInfo p ef = .error e) ∧
    (∀ ef, exportAll p ef = .error e) ∧
    (∀ data now ef, importAll p data now ef = .error e) := by
  refine ⟨?_, ?_, ?_, ?_, ?_, ?_, ?_, ?_, ?_, ?_⟩ <;>
    intros <;>
      simp [getItem, setItem, removeItem, clearAll, atomicUpdate, updateData,
            batchUpdate, getStorageInfo, exportAll, importAll, h]

/-- Witness for `claim7_init_failure_propagates`: a provider whose open
rejected; `getItem` and `getStorageInfo` both reject with that error. -/
theorem claim7_init_failure_propagates_witness :
    getItem ⟨some ⟨"UnknownError", "open failed"⟩, []⟩ "a" false
      = .error ⟨"UnknownError", "open failed"⟩ ∧
    getStorageInfo ⟨some ⟨"UnknownError", "open failed"⟩, []⟩ false
      = .error ⟨"UnknownError", "open failed"⟩ :=
  ⟨(claim7_init_failure_propagates ⟨some ⟨"UnknownError", "open failed"⟩, []⟩
      ⟨"UnknownError", "open failed"⟩ rfl).1 "a" false,
   (claim7_init_failure_propagates ⟨some ⟨"UnknownError", "open failed"⟩, []⟩
      ⟨"UnknownError", "open failed"⟩ rfl).2.2.2.2.2.2.2.1 false⟩

/-! ## C8 — `setItem` / `getItem` round-trip -/

/-- **C8 (confirmed).**  On an initialized provider, a successful
`setItem(k, v)` followed by `getItem(k)` with no intervening write
returns exactly `v`. -/
theorem claim8_roundtrip (p p2 : Provider) (k v : String) (now : Nat)
    (h : p.dbOpened = none)
    (hset : setItem p k v now false = .ok p2) :
    getItem p2 k false = .ok (some v) := by
  simp only [setItem, h, Bool.false_eq_true, if_false] at hset
  have hp2 : (⟨none, p.table.put ⟨k, v, some now⟩⟩ : Provider) = p2 := by
    injection hset
  subst hp2
  simp [getItem, Table.get_put_same p.table ⟨k, v, some now⟩]

/-- Witness for `claim8_roundtrip`. -/
theorem claim8_roundtrip_witness :
    getItem ⟨none, [⟨"a", "b", some 7⟩]⟩ "a" false = .ok (some "b") :=
  claim8_roundtrip ⟨none, []⟩ ⟨none, [⟨"a", "b", some 7⟩]⟩ "a" "b" 7 rfl rfl

/-! ## C10 — `importAll` merges, leaving absent keys untouched -/

/-- **C10 (confirmed).**  `importAll(data)` only `bulkPut`s the records
built from `data`'s entries: any key not occurring in `data` keeps
its record — value and timestamp — unchanged. -/
theorem claim10_import_frame (p : Provider) (data : List (String × String))
    (now : Nat) (k : String) (p2 : Provider)
    (h : p.dbOpened = none)
    (hk : ∀ kv ∈ data, kv.1 ≠ k)
    (himp : importAll p data now false = .ok p2) :
    p2.table.get k = p.table.get k := by
  simp only [importAll, h, Bool.false_eq_true, if_false] at himp
  have hp2 : (⟨none,
      p.table.bulkPut (data.map (fun kv => ⟨kv.1, kv.2, some now⟩))⟩ : Provider)
      = p2 := by
    injection himp
  subst hp2
  show (p.table.bulkPut (data.map (fun kv => ⟨kv.1, kv.2, some now⟩))).get k
      = p.table.get k
  apply Table.get_bulkPut_not_mem
  intro r hr
  obtain ⟨kv, hkv, rfl⟩ := List.mem_map.mp hr
  exact hk kv hkv

/-- Witness for `claim10_import_frame`: importing `{"a" ↦ "1"}` into a
store holding `"x"` leaves `"x"`'s record (value and timestamp) as it
was. -/
theorem claim10_import_frame_witness :
    (Provider.table ⟨none, [⟨"x", "old", some 1⟩, ⟨"a", "1", some 9⟩]⟩).get "x"
      = (Provider.table ⟨none, [⟨"x", "old", some 1⟩]⟩).get "x" :=
  claim10_import_frame ⟨none, [⟨"x", "old", some 1⟩]⟩ [("a", "1")] 9 "x"
    ⟨none, [⟨"x", "old", some 1⟩, ⟨"a", "1", some 9⟩]⟩ rfl (by decide) rfl
